import Mathlib

/-
Verification of the hospital-api appointment service (src/main.py, src/models.py).

The HTTP layer, SQLAlchemy session and JWT auth are collaborators; the record
store is embedded as an explicit state (Store) holding the three tables and
the autoincrement counters of their integer primary keys.  Each endpoint
handler of src/main.py becomes a function from a Store to a result paired with a Store:
the Python handler raises HTTPException before any mutation, so on the error
side the returned store is the input store.  Date and time values are treated
as uninterpreted parsed scalars, embedded as strings.
-/

namespace HospitalApi

/-- models.Patient: id (integer primary key), name, phone, age, gender. -/
structure Patient where
  id : Nat
  name : String
  phone : String
  age : Nat
  gender : String
deriving Repr, DecidableEq

/-- models.Doctor: id (integer primary key), name, phone, specialty. -/
structure Doctor where
  id : Nat
  name : String
  phone : String
  specialty : String
deriving Repr, DecidableEq

/-- models.Appointment: id (integer primary key), patient_id, doctor_id,
date, time, token_number (default 0, set to id after insert). -/
structure Appointment where
  id : Nat
  patient_id : Nat
  doctor_id : Nat
  date : String
  time : String
  token_number : Nat
deriving Repr, DecidableEq

/-- Schema PatientCreate of src/main.py (the request payload: no id). -/
structure PatientCreate where
  name : String
  phone : String
  age : Nat
  gender : String
deriving Repr, DecidableEq

/-- Schema DoctorCreate of src/main.py. -/
structure DoctorCreate where
  name : String
  phone : String
  specialty : String
deriving Repr, DecidableEq

/-- Schema AppointmentCreate of src/main.py: patient_id, doctor_id, date, time.
It carries neither id nor token_number. -/
structure AppointmentCreate where
  patient_id : Nat
  doctor_id : Nat
  date : String
  time : String
deriving Repr, DecidableEq

/-- fastapi.HTTPException as raised by the handlers: a status code and a detail
message. -/
structure HTTPException where
  status_code : Nat
  detail : String
deriving Repr, DecidableEq

/-- The record store: the three tables in insertion order plus the next value
of each table's generated integer primary key (autoincrement starting at 1). -/
structure Store where
  patients : List Patient
  doctors : List Doctor
  appointments : List Appointment
  nextPatientId : Nat
  nextDoctorId : Nat
  nextAppointmentId : Nat
deriving Repr, DecidableEq

/-- A freshly created database: empty tables, ids start at 1. -/
def emptyStore : Store :=
  { patients := [], doctors := [], appointments := []
    nextPatientId := 1, nextDoctorId := 1, nextAppointmentId := 1 }

/-- db.query(Patient).filter(Patient.id == pid).first() -/
def findPatient (db : Store) (pid : Nat) : Option Patient :=
  db.patients.find? (fun p => p.id == pid)

/-- db.query(Doctor).filter(Doctor.id == did).first() -/
def findDoctor (db : Store) (did : Nat) : Option Doctor :=
  db.doctors.find? (fun d => d.id == did)

/-- db.query(Appointment).filter(Appointment.id == aid).first() -/
def findAppointment (db : Store) (aid : Nat) : Option Appointment :=
  db.appointments.find? (fun a => a.id == aid)

/-- POST /patients: insert the payload as a new Patient row, id generated. -/
def create_patient (payload : PatientCreate) (db : Store) :
    Except HTTPException Patient × Store :=
  let p : Patient :=
    { id := db.nextPatientId, name := payload.name, phone := payload.phone
      age := payload.age, gender := payload.gender }
  (.ok p, { db with patients := db.patients ++ [p]
                    nextPatientId := db.nextPatientId + 1 })

/-- GET /patients -/
def list_patients (db : Store) : List Patient × Store :=
  (db.patients, db)

/-- GET /patients/id: 404 "Patient not found" when absent. -/
def get_patient (patient_id : Nat) (db : Store) :
    Except HTTPException Patient × Store :=
  match findPatient db patient_id with
  | none => (.error ⟨404, "Patient not found"⟩, db)
  | some p => (.ok p, db)

/-- PUT /patients/id: overwrite the payload fields of the row. -/
def update_patient (patient_id : Nat) (payload : PatientCreate) (db : Store) :
    Except HTTPException Patient × Store :=
  match findPatient db patient_id with
  | none => (.error ⟨404, "Patient not found"⟩, db)
  | some p =>
    let p2 : Patient :=
      { p with name := payload.name, phone := payload.phone
               age := payload.age, gender := payload.gender }
    (.ok p2, { db with
      patients := db.patients.map (fun q => if q.id == patient_id then p2 else q) })

/-- DELETE /patients/id: db.delete(p); the ORM relationship
cascade="all, delete-orphan" (models.py line 15) also deletes every
Appointment whose patient_id references the deleted Patient. -/
def delete_patient (patient_id : Nat) (db : Store) :
    Except HTTPException Unit × Store :=
  match findPatient db patient_id with
  | none => (.error ⟨404, "Patient not found"⟩, db)
  | some _ =>
    (.ok (), { db with
      patients := db.patients.filter (fun p => p.id != patient_id)
      appointments := db.appointments.filter (fun a => a.patient_id != patient_id) })

/-- POST /doctors -/
def create_doctor (payload : DoctorCreate) (db : Store) :
    Except HTTPException Doctor × Store :=
  let d : Doctor :=
    { id := db.nextDoctorId, name := payload.name, phone := payload.phone
      specialty := payload.specialty }
  (.ok d, { db with doctors := db.doctors ++ [d]
                    nextDoctorId := db.nextDoctorId + 1 })

/-- GET /doctors -/
def list_doctors (db : Store) : List Doctor × Store :=
  (db.doctors, db)

/-- GET /doctors/id: 404 "Doctor not found" when absent. -/
def get_doctor (doctor_id : Nat) (db : Store) :
    Except HTTPException Doctor × Store :=
  match findDoctor db doctor_id with
  | none => (.error ⟨404, "Doctor not found"⟩, db)
  | some d => (.ok d, db)

/-- PUT /doctors/id -/
def update_doctor (doctor_id : Nat) (payload : DoctorCreate) (db : Store) :
    Except HTTPException Doctor × Store :=
  match findDoctor db doctor_id with
  | none => (.error ⟨404, "Doctor not found"⟩, db)
  | some d =>
    let d2 : Doctor :=
      { d with name := payload.name, phone := payload.phone
               specialty := payload.specialty }
    (.ok d2, { db with
      doctors := db.doctors.map (fun q => if q.id == doctor_id then d2 else q) })

/-- DELETE /doctors/id: cascade (models.py line 26) also deletes every
Appointment whose doctor_id references the deleted Doctor. -/
def delete_doctor (doctor_id : Nat) (db : Store) :
    Except HTTPException Unit × Store :=
  match findDoctor db doctor_id with
  | none => (.error ⟨404, "Doctor not found"⟩, db)
  | some _ =>
    (.ok (), { db with
      doctors := db.doctors.filter (fun d => d.id != doctor_id)
      appointments := db.appointments.filter (fun a => a.doctor_id != doctor_id) })

/-- POST /appointments (create_appointment, src/main.py lines 224-240):
check patient exists (else 404 "Patient not found"), check doctor exists
(else 404 "Doctor not found"); insert the Appointment with token_number=0,
commit to obtain its generated id, then set token_number = id and commit
again; return the refreshed row. -/
def create_appointment (payload : AppointmentCreate) (db : Store) :
    Except HTTPException Appointment × Store :=
  if (findPatient db payload.patient_id).isNone then
    (.error ⟨404, "Patient not found"⟩, db)
  else if (findDoctor db payload.doctor_id).isNone then
    (.error ⟨404, "Doctor not found"⟩, db)
  else
    let appt0 : Appointment :=
      { id := db.nextAppointmentId, patient_id := payload.patient_id
        doctor_id := payload.doctor_id, date := payload.date
        time := payload.time, token_number := 0 }
    let db1 : Store :=
      { db with appointments := db.appointments ++ [appt0]
                nextAppointmentId := db.nextAppointmentId + 1 }
    let appt : Appointment := { appt0 with token_number := appt0.id }
    let db2 : Store :=
      { db1 with appointments :=
          db1.appointments.map (fun a => if a.id == appt0.id then appt else a) }
    (.ok appt, db2)

/-- GET /appointments -/
def list_appointments (db : Store) : List Appointment × Store :=
  (db.appointments, db)

/-- GET /appointments/id: 404 "Appointment not found" when absent. -/
def get_appointment (appointment_id : Nat) (db : Store) :
    Except HTTPException Appointment × Store :=
  match findAppointment db appointment_id with
  | none => (.error ⟨404, "Appointment not found"⟩, db)
  | some a => (.ok a, db)

/-- PUT /appointments/id (update_appointment, src/main.py lines 256-272):
check appointment exists, then patient, then doctor (each 404 with its own
detail); then overwrite exactly the payload fields (patient_id, doctor_id,
date, time) of the row. -/
def update_appointment (appointment_id : Nat) (payload : AppointmentCreate)
    (db : Store) : Except HTTPException Appointment × Store :=
  match findAppointment db appointment_id with
  | none => (.error ⟨404, "Appointment not found"⟩, db)
  | some appt =>
    if (findPatient db payload.patient_id).isNone then
      (.error ⟨404, "Patient not found"⟩, db)
    else if (findDoctor db payload.doctor_id).isNone then
      (.error ⟨404, "Doctor not found"⟩, db)
    else
      let appt2 : Appointment :=
        { appt with patient_id := payload.patient_id
                    doctor_id := payload.doctor_id
                    date := payload.date, time := payload.time }
      (.ok appt2, { db with appointments :=
          db.appointments.map (fun a => if a.id == appointment_id then appt2 else a) })

/-- DELETE /appointments/id (delete_appointment, src/main.py lines 275-282):
404 when absent, otherwise remove the row; an Appointment has no dependents. -/
def delete_appointment (appointment_id : Nat) (db : Store) :
    Except HTTPException Unit × Store :=
  match findAppointment db appointment_id with
  | none => (.error ⟨404, "Appointment not found"⟩, db)
  | some _ =>
    (.ok (), { db with
      appointments := db.appointments.filter (fun a => a.id != appointment_id) })

/-- One completed API operation, taken as one atomic step against the store. -/
inductive Op where
  | createPatient (payload : PatientCreate)
  | updatePatient (pid : Nat) (payload : PatientCreate)
  | deletePatient (pid : Nat)
  | createDoctor (payload : DoctorCreate)
  | updateDoctor (did : Nat) (payload : DoctorCreate)
  | deleteDoctor (did : Nat)
  | createAppointment (payload : AppointmentCreate)
  | updateAppointment (aid : Nat) (payload : AppointmentCreate)
  | deleteAppointment (aid : Nat)
  | getPatient (pid : Nat)
  | getDoctor (did : Nat)
  | getAppointment (aid : Nat)
  | listPatients
  | listDoctors
  | listAppointments
deriving Repr

/-- Store after one completed operation (on failure the handler raised before
mutating, so the store is unchanged). -/
def applyOp (op : Op) (db : Store) : Store :=
  match op with
  | .createPatient payload => (create_patient payload db).2
  | .updatePatient pid payload => (update_patient pid payload db).2
  | .deletePatient pid => (delete_patient pid db).2
  | .createDoctor payload => (create_doctor payload db).2
  | .updateDoctor did payload => (update_doctor did payload db).2
  | .deleteDoctor did => (delete_doctor did db).2
  | .createAppointment payload => (create_appointment payload db).2
  | .updateAppointment aid payload => (update_appointment aid payload db).2
  | .deleteAppointment aid => (delete_appointment aid db).2
  | .getPatient pid => (get_patient pid db).2
  | .getDoctor did => (get_doctor did db).2
  | .getAppointment aid => (get_appointment aid db).2
  | .listPatients => (list_patients db).2
  | .listDoctors => (list_doctors db).2
  | .listAppointments => (list_appointments db).2

/-- Store states reachable from a fresh database by completed operations. -/
inductive Reachable : Store → Prop where
  | init : Reachable emptyStore
  | step (op : Op) {db : Store} : Reachable db → Reachable (applyOp op db)

/-- Every persisted Appointment carries token_number equal to its own id. -/
def tokenInvariant (db : Store) : Prop :=
  ∀ a ∈ db.appointments, a.token_number = a.id

/-- Every persisted Appointment references an existing Patient and an existing
Doctor (no orphans). -/
def refIntegrity (db : Store) : Prop :=
  ∀ a ∈ db.appointments,
    (∃ p ∈ db.patients, p.id = a.patient_id) ∧
    (∃ d ∈ db.doctors, d.id = a.doctor_id)

/-- Patient payload of the concrete scenario in the spec. -/
def janePayload : PatientCreate :=
  { name := "Jane", phone := "555", age := 30, gender := "F" }

/-- Doctor payload of the concrete scenario in the spec. -/
def smithPayload : DoctorCreate :=
  { name := "Smith", phone := "555", specialty := "Cardio" }

/-- First booking of the concrete scenario. -/
def demoBooking1 : AppointmentCreate :=
  { patient_id := 1, doctor_id := 1, date := "2024-01-10", time := "09:00" }

/-- Second booking of the concrete scenario. -/
def demoBooking2 : AppointmentCreate :=
  { patient_id := 1, doctor_id := 1, date := "2024-01-11", time := "10:00" }

/-- Fresh database after creating the scenario's Patient. -/
def demoStore1 : Store := applyOp (.createPatient janePayload) emptyStore

/-- Store after also creating the scenario's Doctor. -/
def demoStore2 : Store := applyOp (.createDoctor smithPayload) demoStore1

/-- Store after also booking the first Appointment. -/
def demoStore3 : Store := applyOp (.createAppointment demoBooking1) demoStore2

/-- The Appointment produced by the scenario's first booking. -/
def demoAppt : Appointment :=
  { id := 1, patient_id := 1, doctor_id := 1, date := "2024-01-10"
    time := "09:00", token_number := 1 }

/-- Store after also booking the second Appointment. -/
def demoStore4 : Store := applyOp (.createAppointment demoBooking2) demoStore3

/-- The Appointment produced by the scenario's second booking. -/
def demoAppt2 : Appointment :=
  { id := 2, patient_id := 1, doctor_id := 1, date := "2024-01-11"
    time := "10:00", token_number := 2 }

/-- The scenario's failing booking: patient 99 does not exist. -/
def badBooking : AppointmentCreate :=
  { patient_id := 99, doctor_id := 1, date := "2024-01-12", time := "11:00" }

/-- The Appointment returned by create_appointment on success: the inserted row
refreshed after token_number was set to the generated id. -/
def bookedAppt (db : Store) (payload : AppointmentCreate) : Appointment :=
  { id := db.nextAppointmentId, patient_id := payload.patient_id
    doctor_id := payload.doctor_id, date := payload.date, time := payload.time
    token_number := db.nextAppointmentId }

/-- The row as first inserted by create_appointment, before the token update. -/
def provisionalAppt (db : Store) (payload : AppointmentCreate) : Appointment :=
  { id := db.nextAppointmentId, patient_id := payload.patient_id
    doctor_id := payload.doctor_id, date := payload.date, time := payload.time
    token_number := 0 }

/-- The store create_appointment leaves behind on success. -/
def bookedStore (db : Store) (payload : AppointmentCreate) : Store :=
  { db with
    appointments := (db.appointments ++ [provisionalAppt db payload]).map
      (fun a => if a.id == db.nextAppointmentId then bookedAppt db payload else a)
    nextAppointmentId := db.nextAppointmentId + 1 }

theorem findPatient_isSome_iff {db : Store} {pid : Nat} :
    (findPatient db pid).isSome ↔ ∃ p ∈ db.patients, p.id = pid := by
  simp [findPatient, List.find?_isSome]

theorem findDoctor_isSome_iff {db : Store} {did : Nat} :
    (findDoctor db did).isSome ↔ ∃ d ∈ db.doctors, d.id = did := by
  simp [findDoctor, List.find?_isSome]

theorem findAppointment_isSome_iff {db : Store} {aid : Nat} :
    (findAppointment db aid).isSome ↔ ∃ a ∈ db.appointments, a.id = aid := by
  simp [findAppointment, List.find?_isSome]

theorem exists_id_map_update {α : Type} (idf : α → Nat) {l : List α} {x pid : Nat}
    {r : α} (hr : idf r = pid) (h : ∃ p ∈ l, idf p = x) :
    ∃ p ∈ l.map (fun q => if idf q == pid then r else q), idf p = x := by
  rcases h with ⟨w, hw, hwx⟩
  by_cases hwp : idf w = pid
  · refine ⟨r, ?_, by rw [hr, ← hwp, hwx]⟩
    have hm := List.mem_map_of_mem (fun q => if idf q == pid then r else q) hw
    simpa [hwp] using hm
  · refine ⟨w, ?_, hwx⟩
    have hm := List.mem_map_of_mem (fun q => if idf q == pid then r else q) hw
    simpa [hwp] using hm

theorem exists_id_filter_ne {α : Type} (idf : α → Nat) {l : List α} {x pid : Nat}
    (hx : x ≠ pid) (h : ∃ p ∈ l, idf p = x) :
    ∃ p ∈ l.filter (fun q => idf q != pid), idf p = x := by
  rcases h with ⟨w, hw, hwx⟩
  exact ⟨w, List.mem_filter.mpr ⟨hw, by simp [hwx, hx]⟩, hwx⟩

theorem find?_map_replace {α : Type} (idf : α → Nat) {l : List α} {n : Nat} {r : α}
    (hr : idf r = n) (h : ∃ a ∈ l, idf a = n) :
    (l.map (fun a => if idf a == n then r else a)).find? (fun a => idf a == n) = some r := by
  induction l with
  | nil => simp at h
  | cons b t ih =>
    rcases h with ⟨a, ha, han⟩
    by_cases hb : idf b = n
    · have hfb : (if idf b == n then r else b) = r := by simp [hb]
      rw [List.map_cons, hfb, List.find?_cons_of_pos _ (by simp [hr])]
    · have hfb : (if idf b == n then r else b) = b := by simp [hb]
      have ha2 : a ∈ t := by
        rcases List.mem_cons.mp ha with h1 | h1
        · exact absurd (h1 ▸ han) hb
        · exact h1
      rw [List.map_cons, hfb, List.find?_cons_of_neg _ (by simp [hb])]
      exact ih ⟨a, ha2, han⟩

theorem tokenInvariant_applyOp (op : Op) {db : Store} (h : tokenInvariant db) :
    tokenInvariant (applyOp op db) := by
  cases op with
  | createPatient payload => exact fun a ha => h a ha
  | updatePatient pid payload =>
    simp only [applyOp, update_patient]
    cases hfp : findPatient db pid with
    | none => exact fun a ha => h a ha
    | some p => exact fun a ha => h a ha
  | deletePatient pid =>
    simp only [applyOp, delete_patient]
    cases hfp : findPatient db pid with
    | none => exact fun a ha => h a ha
    | some p => exact fun a ha => h a (List.mem_filter.mp ha).1
  | createDoctor payload => exact fun a ha => h a ha
  | updateDoctor did payload =>
    simp only [applyOp, update_doctor]
    cases hfd : findDoctor db did with
    | none => exact fun a ha => h a ha
    | some d => exact fun a ha => h a ha
  | deleteDoctor did =>
    simp only [applyOp, delete_doctor]
    cases hfd : findDoctor db did with
    | none => exact fun a ha => h a ha
    | some d => exact fun a ha => h a (List.mem_filter.mp ha).1
  | createAppointment payload =>
    simp only [applyOp, create_appointment]
    by_cases hp : (findPatient db payload.patient_id).isNone
    · simpa [hp] using h
    · by_cases hd : (findDoctor db payload.doctor_id).isNone
      · simpa [hp, hd] using h
      · simp only [hp, hd, Bool.false_eq_true, if_false]
        intro b hb
        rcases List.mem_map.mp hb with ⟨a, ha, rfl⟩
        by_cases hid : a.id = db.nextAppointmentId
        · simp [hid]
        · simp only [hid, beq_iff_eq, if_false, if_neg hid]
          rcases List.mem_append.mp ha with h1 | h1
          · exact h a h1
          · rcases List.mem_singleton.mp h1 with rfl
            exact absurd rfl hid
  | updateAppointment aid payload =>
    simp only [applyOp, update_appointment]
    cases hfa : findAppointment db aid with
    | none => exact fun a ha => h a ha
    | some appt =>
      by_cases hp : (findPatient db payload.patient_id).isNone
      · simpa [hp] using h
      · by_cases hd : (findDoctor db payload.doctor_id).isNone
        · simpa [hp, hd] using h
        · simp only [hp, hd, Bool.false_eq_true, if_false]
          intro b hb
          rcases List.mem_map.mp hb with ⟨a, ha, rfl⟩
          by_cases hid : a.id = aid
          · have hmem := List.mem_of_find?_eq_some hfa
            have := h appt hmem
            simp [hid, this]
          · simp only [hid, beq_iff_eq, if_neg hid]
            exact h a ha
  | deleteAppointment aid =>
    simp only [applyOp, delete_appointment]
    cases hfa : findAppointment db aid with
    | none => exact fun a ha => h a ha
    | some appt => exact fun a ha => h a (List.mem_filter.mp ha).1
  | getPatient pid =>
    simp only [applyOp, get_patient]
    cases hfp : findPatient db pid with
    | none => exact fun a ha => h a ha
    | some p => exact fun a ha => h a ha
  | getDoctor did =>
    simp only [applyOp, get_doctor]
    cases hfd : findDoctor db did with
    | none => exact fun a ha => h a ha
    | some d => exact fun a ha => h a ha
  | getAppointment aid =>
    simp only [applyOp, get_appointment]
    cases hfa : findAppointment db aid with
    | none => exact fun a ha => h a ha
    | some appt => exact fun a ha => h a ha
  | listPatients => exact fun a ha => h a ha
  | listDoctors => exact fun a ha => h a ha
  | listAppointments => exact fun a ha => h a ha

/-- C2: in every store state reachable by completed operations, every persisted
Appointment has token_number equal to its own id — once book() has returned,
no reader observes a token_number different from the id (no placeholder). -/
theorem reachable_token_number_eq_id {db : Store} (h : Reachable db) :
    tokenInvariant db := by
  induction h with
  | init => intro a ha; simp [emptyStore] at ha
  | step op hdb ih => exact tokenInvariant_applyOp op ih

/-- C2 witness: the Appointment persisted in the concrete reachable scenario
store carries token_number equal to its id. -/
theorem reachable_token_number_eq_id_witness :
    demoAppt.token_number = demoAppt.id :=
  @reachable_token_number_eq_id demoStore3
    (Reachable.step _ (Reachable.step _ (Reachable.step _ Reachable.init)))
    demoAppt (by decide)

theorem isSome_of_not_isNone {α : Type} {o : Option α} (h : ¬ o.isNone = true) :
    o.isSome := by
  cases o <;> simp_all

theorem refIntegrity_applyOp (op : Op) {db : Store} (h : refIntegrity db) :
    refIntegrity (applyOp op db) := by
  cases op with
  | createPatient payload =>
    refine fun a ha => ?_
    obtain ⟨⟨p, hp, hpe⟩, hdd⟩ := h a ha
    exact ⟨⟨p, List.mem_append_left _ hp, hpe⟩, hdd⟩
  | updatePatient pid payload =>
    simp only [applyOp, update_patient]
    cases hfp : findPatient db pid with
    | none => exact h
    | some p =>
      refine fun a ha => ?_
      obtain ⟨⟨w, hw, hwe⟩, hdd⟩ := h a ha
      have hpid : p.id = pid := by simpa using List.find?_some hfp
      exact ⟨exists_id_map_update Patient.id hpid ⟨w, hw, hwe⟩, hdd⟩
  | deletePatient pid =>
    simp only [applyOp, delete_patient]
    cases hfp : findPatient db pid with
    | none => exact h
    | some p =>
      refine fun a ha => ?_
      have hmem := (List.mem_filter.mp ha).1
      have hane : a.patient_id ≠ pid := by
        simpa using (List.mem_filter.mp ha).2
      obtain ⟨hexp, hdd⟩ := h a hmem
      exact ⟨exists_id_filter_ne Patient.id hane hexp, hdd⟩
  | createDoctor payload =>
    refine fun a ha => ?_
    obtain ⟨hpp, ⟨d, hd, hde⟩⟩ := h a ha
    exact ⟨hpp, ⟨d, List.mem_append_left _ hd, hde⟩⟩
  | updateDoctor did payload =>
    simp only [applyOp, update_doctor]
    cases hfd : findDoctor db did with
    | none => exact h
    | some d =>
      refine fun a ha => ?_
      obtain ⟨hpp, ⟨w, hw, hwe⟩⟩ := h a ha
      have hdid : d.id = did := by simpa using List.find?_some hfd
      exact ⟨hpp, exists_id_map_update Doctor.id hdid ⟨w, hw, hwe⟩⟩
  | deleteDoctor did =>
    simp only [applyOp, delete_doctor]
    cases hfd : findDoctor db did with
    | none => exact h
    | some d =>
      refine fun a ha => ?_
      have hmem := (List.mem_filter.mp ha).1
      have hane : a.doctor_id ≠ did := by
        simpa using (List.mem_filter.mp ha).2
      obtain ⟨hpp, hexd⟩ := h a hmem
      exact ⟨hpp, exists_id_filter_ne Doctor.id hane hexd⟩
  | createAppointment payload =>
    simp only [applyOp, create_appointment]
    by_cases hp : (findPatient db payload.patient_id).isNone
    · simpa [hp] using h
    · by_cases hd : (findDoctor db payload.doctor_id).isNone
      · simpa [hp, hd] using h
      · have hps := findPatient_isSome_iff.mp (isSome_of_not_isNone hp)
        have hds := findDoctor_isSome_iff.mp (isSome_of_not_isNone hd)
        simp only [hp, hd, Bool.false_eq_true, if_false]
        refine fun b hb => ?_
        rcases List.mem_map.mp hb with ⟨a, ha, rfl⟩
        by_cases hid : a.id = db.nextAppointmentId
        · simpa [hid] using ⟨hps, hds⟩
        · simp only [hid, beq_iff_eq, if_neg hid]
          rcases List.mem_append.mp ha with h1 | h1
          · exact h a h1
          · rcases List.mem_singleton.mp h1 with rfl
            exact absurd rfl hid
  | updateAppointment aid payload =>
    simp only [applyOp, update_appointment]
    cases hfa : findAppointment db aid with
    | none => exact h
    | some appt =>
      by_cases hp : (findPatient db payload.patient_id).isNone
      · simpa [hp] using h
      · by_cases hd : (findDoctor db payload.doctor_id).isNone
        · simpa [hp, hd] using h
        · have hps := findPatient_isSome_iff.mp (isSome_of_not_isNone hp)
          have hds := findDoctor_isSome_iff.mp (isSome_of_not_isNone hd)
          simp only [hp, hd, Bool.false_eq_true, if_false]
          refine fun b hb => ?_
          rcases List.mem_map.mp hb with ⟨a, ha, rfl⟩
          by_cases hid : a.id = aid
          · simpa [hid] using ⟨hps, hds⟩
          · simp only [hid, beq_iff_eq, if_neg hid]
            exact h a ha
  | deleteAppointment aid =>
    simp only [applyOp, delete_appointment]
    cases hfa : findAppointment db aid with
    | none => exact h
    | some appt => exact fun a ha => h a (List.mem_filter.mp ha).1
  | getPatient pid =>
    simp only [applyOp, get_patient]
    cases hfp : findPatient db pid with
    | none => exact h
    | some p => exact h
  | getDoctor did =>
    simp only [applyOp, get_doctor]
    cases hfd : findDoctor db did with
    | none => exact h
    | some d => exact h
  | getAppointment aid =>
    simp only [applyOp, get_appointment]
    cases hfa : findAppointment db aid with
    | none => exact h
    | some appt => exact h
  | listPatients => exact h
  | listDoctors => exact h
  | listAppointments => exact h

/-- C4: deleting a Patient (resp. Doctor) also deletes every Appointment whose
patient_id (resp. doctor_id) references it — afterwards no appointment in the
store references the deleted record, each formerly referencing Appointment is
gone from list() and not returned by get() — and in every reachable store
state no orphaned Appointment persists (every Appointment references an
existing Patient and Doctor). -/
theorem delete_cascades_and_no_orphans (db : Store) :
    (∀ pid db2, delete_patient pid db = (.ok (), db2) →
      (∀ a ∈ db2.appointments, a.patient_id ≠ pid) ∧
      (∀ a ∈ db.appointments, a.patient_id = pid →
        a ∉ db2.appointments ∧ (get_appointment a.id db2).1 ≠ .ok a)) ∧
    (∀ did db2, delete_doctor did db = (.ok (), db2) →
      (∀ a ∈ db2.appointments, a.doctor_id ≠ did) ∧
      (∀ a ∈ db.appointments, a.doctor_id = did →
        a ∉ db2.appointments ∧ (get_appointment a.id db2).1 ≠ .ok a)) ∧
    (Reachable db → refIntegrity db) := by
  refine ⟨?_, ?_, ?_⟩
  · intro pid db2 hdel
    rw [delete_patient] at hdel
    cases hfp : findPatient db pid with
    | none => rw [hfp] at hdel; exact absurd (congrArg Prod.fst hdel) (by simp)
    | some p =>
      rw [hfp] at hdel
      have hdb2 : db2 = { db with
          patients := db.patients.filter (fun p => p.id != pid)
          appointments := db.appointments.filter (fun a => a.patient_id != pid) } :=
        (congrArg Prod.snd hdel).symm
      subst hdb2
      constructor
      · intro a ha
        simpa using (List.mem_filter.mp ha).2
      · intro a ha hapid
        have hnotmem : a ∉ (db.appointments.filter (fun a => a.patient_id != pid)) := by
          intro hmem
          have := (List.mem_filter.mp hmem).2
          simp [hapid] at this
        refine ⟨hnotmem, ?_⟩
        intro hget
        rw [get_appointment] at hget
        cases hfa : findAppointment _ a.id with
        | none => rw [hfa] at hget; exact absurd hget (by simp)
        | some b =>
          rw [hfa] at hget
          have hb : b = a := by simpa using hget
          subst hb
          exact hnotmem (List.mem_of_find?_eq_some hfa)
  · intro did db2 hdel
    rw [delete_doctor] at hdel
    cases hfd : findDoctor db did with
    | none => rw [hfd] at hdel; exact absurd (congrArg Prod.fst hdel) (by simp)
    | some d =>
      rw [hfd] at hdel
      have hdb2 : db2 = { db with
          doctors := db.doctors.filter (fun d => d.id != did)
          appointments := db.appointments.filter (fun a => a.doctor_id != did) } :=
        (congrArg Prod.snd hdel).symm
      subst hdb2
      constructor
      · intro a ha
        simpa using (List.mem_filter.mp ha).2
      · intro a ha hadid
        have hnotmem : a ∉ (db.appointments.filter (fun a => a.doctor_id != did)) := by
          intro hmem
          have := (List.mem_filter.mp hmem).2
          simp [hadid] at this
        refine ⟨hnotmem, ?_⟩
        intro hget
        rw [get_appointment] at hget
        cases hfa : findAppointment _ a.id with
        | none => rw [hfa] at hget; exact absurd hget (by simp)
        | some b =>
          rw [hfa] at hget
          have hb : b = a := by simpa using hget
          subst hb
          exact hnotmem (List.mem_of_find?_eq_some hfa)
  · intro hreach
    induction hreach with
    | init => intro a ha; simp [emptyStore] at ha
    | step op hdb ih => exact refIntegrity_applyOp op ih

/-- C4 witness: in the concrete scenario store, deleting Patient 1 (resp.
Doctor 1) removes the Appointment referencing it, and the reachable scenario
store has no orphaned Appointment. -/
theorem delete_cascades_and_no_orphans_witness :
    demoAppt ∉ ((delete_patient 1 demoStore3).2).appointments ∧
    demoAppt ∉ ((delete_doctor 1 demoStore3).2).appointments ∧
    ((∃ p ∈ demoStore3.patients, p.id = demoAppt.patient_id) ∧
     (∃ d ∈ demoStore3.doctors, d.id = demoAppt.doctor_id)) :=
  ⟨(((delete_cascades_and_no_orphans demoStore3).1 1 (delete_patient 1 demoStore3).2
      rfl).2 demoAppt (by decide) rfl).1,
   (((delete_cascades_and_no_orphans demoStore3).2.1 1 (delete_doctor 1 demoStore3).2
      rfl).2 demoAppt (by decide) rfl).1,
   (delete_cascades_and_no_orphans demoStore3).2.2
     (Reachable.step _ (Reachable.step _ (Reachable.step _ Reachable.init)))
     demoAppt (by decide)⟩

theorem isNone_eq_false_of_isSome {α : Type} {o : Option α} (h : o.isSome) :
    o.isNone = false := by
  cases o <;> simp_all

theorem create_appointment_ok {db : Store} {payload : AppointmentCreate}
    (hp : (findPatient db payload.patient_id).isSome)
    (hd : (findDoctor db payload.doctor_id).isSome) :
    create_appointment payload db =
      (.ok (bookedAppt db payload), bookedStore db payload) := by
  rw [create_appointment]
  simp only [isNone_eq_false_of_isSome hp, isNone_eq_false_of_isSome hd,
    Bool.false_eq_true, if_false]
  rfl

theorem findAppointment_bookedStore {db : Store} {payload : AppointmentCreate} :
    findAppointment (bookedStore db payload) db.nextAppointmentId =
      some (bookedAppt db payload) := by
  rw [findAppointment]
  simp only [bookedStore]
  exact find?_map_replace Appointment.id rfl
    ⟨provisionalAppt db payload,
     List.mem_append_right _ (List.mem_singleton_self _), rfl⟩

/-- C1: whenever the referenced patient and doctor exist, book succeeds and
returns an Appointment whose token_number equals its own generated id, and a
subsequent get() of that id returns an Appointment with the same token_number. -/
theorem book_token_number_eq_id (db : Store) (payload : AppointmentCreate)
    (hp : (findPatient db payload.patient_id).isSome)
    (hd : (findDoctor db payload.doctor_id).isSome) :
    ∃ appt db2, create_appointment payload db = (.ok appt, db2) ∧
      appt.token_number = appt.id ∧
      ∃ appt2, (get_appointment appt.id db2).1 = .ok appt2 ∧
        appt2.token_number = appt.token_number := by
  refine ⟨bookedAppt db payload, bookedStore db payload,
    create_appointment_ok hp hd, rfl, bookedAppt db payload, ?_, rfl⟩
  rw [get_appointment,
    show (bookedAppt db payload).id = db.nextAppointmentId from rfl,
    findAppointment_bookedStore]

/-- C1 witness: booking the second scenario Appointment in the concrete
scenario store succeeds with token_number equal to the generated id 2. -/
theorem book_token_number_eq_id_witness :
    demoAppt2.token_number = demoAppt2.id ∧
    (create_appointment demoBooking2 demoStore3).1 = .ok demoAppt2 := by
  obtain ⟨appt, db2, heq, htok, -⟩ :=
    book_token_number_eq_id demoStore3 demoBooking2 (by decide) (by decide)
  have hpair : ((Except.ok appt : Except HTTPException Appointment), db2) =
      ((Except.ok demoAppt2 : Except HTTPException Appointment),
        (create_appointment demoBooking2 demoStore3).2) := heq.symm.trans rfl
  have happt : appt = demoAppt2 := by
    injection congrArg Prod.fst hpair
  exact ⟨happt ▸ htok, by rw [heq]; exact congrArg Prod.fst hpair⟩

/-- C3: book is atomic: it either returns a fully confirmed Appointment
(token_number equal to id, persisted in the resulting store) or fails with a
404 NotFound and leaves the store exactly as it was. -/
theorem book_atomic (db : Store) (payload : AppointmentCreate) :
    (∃ appt db2, create_appointment payload db = (.ok appt, db2) ∧
       appt.token_number = appt.id ∧ appt ∈ db2.appointments) ∨
    (∃ e, create_appointment payload db = (.error e, db) ∧ e.status_code = 404) := by
  by_cases hp : (findPatient db payload.patient_id).isSome
  · by_cases hd : (findDoctor db payload.doctor_id).isSome
    · left
      refine ⟨bookedAppt db payload, bookedStore db payload,
        create_appointment_ok hp hd, rfl, ?_⟩
      simp only [bookedStore]
      simp [provisionalAppt]
    · right
      refine ⟨⟨404, "Doctor not found"⟩, ?_, rfl⟩
      rw [create_appointment]
      have hd2 := Option.not_isSome_iff_eq_none.mp hd
      simp [isNone_eq_false_of_isSome hp, hd2]
  · right
    refine ⟨⟨404, "Patient not found"⟩, ?_, rfl⟩
    rw [create_appointment]
    have hp2 := Option.not_isSome_iff_eq_none.mp hp
    simp [hp2]

/-- C6: book checks the patient first: a missing patient yields 404 "Patient
not found" regardless of the doctor; an existing patient with a missing doctor
yields 404 "Doctor not found". -/
theorem book_check_order (db : Store) (payload : AppointmentCreate) :
    (findPatient db payload.patient_id = none →
       create_appointment payload db = (.error ⟨404, "Patient not found"⟩, db)) ∧
    ((findPatient db payload.patient_id).isSome →
       findDoctor db payload.doctor_id = none →
       create_appointment payload db = (.error ⟨404, "Doctor not found"⟩, db)) := by
  constructor
  · intro hnone
    rw [create_appointment]
    simp [hnone]
  · intro hp hdnone
    rw [create_appointment]
    simp [isNone_eq_false_of_isSome hp, hdnone]

/-- C6 witness: booking against the empty store fails naming the patient, and
booking with only Patient 1 present (no doctors) fails naming the doctor. -/
theorem book_check_order_witness :
    create_appointment demoBooking1 emptyStore =
      (.error ⟨404, "Patient not found"⟩, emptyStore) ∧
    create_appointment demoBooking1 demoStore1 =
      (.error ⟨404, "Doctor not found"⟩, demoStore1) :=
  ⟨(book_check_order emptyStore demoBooking1).1 rfl,
   (book_check_order demoStore1 demoBooking1).2 (by decide) rfl⟩

/-- C5: on an existing Appointment with valid patient/doctor, reschedule
overwrites exactly patient_id, doctor_id, date, time (the payload fields) of
that Appointment — its token_number is left unchanged — and persists only that
rewrite; on a nonexistent appointment_id it fails with 404 NotFound. -/
theorem reschedule_overwrites_payload_fields (db : Store) (aid : Nat)
    (payload : AppointmentCreate) :
    (∀ appt, findAppointment db aid = some appt →
      (findPatient db payload.patient_id).isSome →
      (findDoctor db payload.doctor_id).isSome →
      update_appointment aid payload db =
        (.ok { appt with patient_id := payload.patient_id
                         doctor_id := payload.doctor_id
                         date := payload.date, time := payload.time },
         { db with appointments := db.appointments.map (fun a =>
             if a.id == aid then
               { appt with patient_id := payload.patient_id
                           doctor_id := payload.doctor_id
                           date := payload.date, time := payload.time }
             else a) }) ∧
      ({ appt with patient_id := payload.patient_id
                   doctor_id := payload.doctor_id
                   date := payload.date, time := payload.time
         : Appointment }).token_number = appt.token_number) ∧
    (findAppointment db aid = none →
      update_appointment aid payload db =
        (.error ⟨404, "Appointment not found"⟩, db)) := by
  constructor
  · intro appt hfa hp hd
    rw [update_appointment, hfa]
    simp [isNone_eq_false_of_isSome hp, isNone_eq_false_of_isSome hd]
  · intro hnone
    rw [update_appointment, hnone]

/-- C5 witness: rescheduling the scenario's first Appointment to the second
booking's date and time succeeds and keeps token_number 1. -/
theorem reschedule_overwrites_payload_fields_witness :
    update_appointment 1 demoBooking2 demoStore3 =
      (.ok { id := 1, patient_id := 1, doctor_id := 1, date := "2024-01-11"
             time := "10:00", token_number := 1 },
       { demoStore3 with appointments := demoStore3.appointments.map (fun a =>
           if a.id == 1 then
             { id := 1, patient_id := 1, doctor_id := 1, date := "2024-01-11"
               time := "10:00", token_number := 1 }
           else a) }) ∧
    update_appointment 5 demoBooking2 demoStore3 =
      (.error ⟨404, "Appointment not found"⟩, demoStore3) := by
  have h := reschedule_overwrites_payload_fields demoStore3 1 demoBooking2
  have h5 := reschedule_overwrites_payload_fields demoStore3 5 demoBooking2
  refine ⟨?_, h5.2 rfl⟩
  have h1 := (h.1 demoAppt rfl (by decide) (by decide)).1
  exact h1

/-- C7: reschedule checks appointment, then patient, then doctor; the first
failing check wins, yielding 404 NotFound naming that entity, and on any such
failure the store is left unchanged. -/
theorem reschedule_check_order (db : Store) (aid : Nat)
    (payload : AppointmentCreate) :
    (findAppointment db aid = none →
      update_appointment aid payload db =
        (.error ⟨404, "Appointment not found"⟩, db)) ∧
    ((findAppointment db aid).isSome →
      findPatient db payload.patient_id = none →
      update_appointment aid payload db =
        (.error ⟨404, "Patient not found"⟩, db)) ∧
    ((findAppointment db aid).isSome →
      (findPatient db payload.patient_id).isSome →
      findDoctor db payload.doctor_id = none →
      update_appointment aid payload db =
        (.error ⟨404, "Doctor not found"⟩, db)) := by
  refine ⟨?_, ?_, ?_⟩
  · intro hnone
    rw [update_appointment, hnone]
  · intro ha hpnone
    obtain ⟨appt, hfa⟩ := Option.isSome_iff_exists.mp ha
    rw [update_appointment, hfa]
    simp [hpnone]
  · intro ha hp hdnone
    obtain ⟨appt, hfa⟩ := Option.isSome_iff_exists.mp ha
    rw [update_appointment, hfa]
    simp [isNone_eq_false_of_isSome hp, hdnone]

/-- C7 witness: the three failure orders at concrete stores: no appointment in
the patient-and-doctor store, no patient named by the failing booking in the
scenario store, and no doctor when only Patient 1 plus an appointment-free
check applies. -/
theorem reschedule_check_order_witness :
    update_appointment 1 demoBooking1 demoStore2 =
      (.error ⟨404, "Appointment not found"⟩, demoStore2) ∧
    update_appointment 1 badBooking demoStore3 =
      (.error ⟨404, "Patient not found"⟩, demoStore3) ∧
    update_appointment 1 { demoBooking1 with doctor_id := 7 } demoStore3 =
      (.error ⟨404, "Doctor not found"⟩, demoStore3) :=
  ⟨(reschedule_check_order demoStore2 1 demoBooking1).1 rfl,
   (reschedule_check_order demoStore3 1 badBooking).2.1 (by decide) rfl,
   (reschedule_check_order demoStore3 1 _).2.2 (by decide) (by decide) rfl⟩

/-- C8: cancel on a nonexistent appointment_id fails with 404 NotFound (so a
second cancel of the same id always fails); otherwise it removes exactly that
Appointment — patients and doctors are untouched and every other appointment
is kept. -/
theorem cancel_removes_exactly_one (db : Store) (aid : Nat) :
    (findAppointment db aid = none →
      delete_appointment aid db =
        (.error ⟨404, "Appointment not found"⟩, db)) ∧
    (∀ appt, findAppointment db aid = some appt →
      delete_appointment aid db =
        (.ok (), { db with
          appointments := db.appointments.filter (fun a => a.id != aid) }) ∧
      (∀ a ∈ ({ db with
          appointments := db.appointments.filter (fun a => a.id != aid) }
            : Store).appointments, a.id ≠ aid) ∧
      (∀ a ∈ db.appointments, a.id ≠ aid → a ∈ ({ db with
          appointments := db.appointments.filter (fun a => a.id != aid) }
            : Store).appointments) ∧
      (delete_appointment aid { db with
          appointments := db.appointments.filter (fun a => a.id != aid) }).1
        = .error ⟨404, "Appointment not found"⟩) := by
  constructor
  · intro hnone
    rw [delete_appointment, hnone]
  · intro appt hfa
    have hgone : findAppointment
        { db with appointments := db.appointments.filter (fun a => a.id != aid) }
        aid = none := by
      rw [findAppointment]
      rw [List.find?_eq_none]
      intro x hx
      have := (List.mem_filter.mp hx).2
      simpa using this
    refine ⟨by rw [delete_appointment, hfa], ?_, ?_, ?_⟩
    · intro a ha
      simpa using (List.mem_filter.mp ha).2
    · intro a ha hne
      exact List.mem_filter.mpr ⟨ha, by simpa using hne⟩
    · rw [delete_appointment, hgone]

/-- C8 witness: cancelling Appointment 1 in the scenario store succeeds once
and removes it; cancelling id 5 (never existing) fails with 404. -/
theorem cancel_removes_exactly_one_witness :
    delete_appointment 5 demoStore3 =
      (.error ⟨404, "Appointment not found"⟩, demoStore3) ∧
    delete_appointment 1 demoStore3 =
      (.ok (), { demoStore3 with
        appointments := demoStore3.appointments.filter (fun a => a.id != 1) }) ∧
    (delete_appointment 1 { demoStore3 with
        appointments := demoStore3.appointments.filter (fun a => a.id != 1) }).1
      = .error ⟨404, "Appointment not found"⟩ :=
  ⟨(cancel_removes_exactly_one demoStore3 5).1 rfl,
   ((cancel_removes_exactly_one demoStore3 1).2 demoAppt rfl).1,
   ((cancel_removes_exactly_one demoStore3 1).2 demoAppt rfl).2.2.2⟩

/-- C9: the concrete scenario from the empty store: Patient "Jane" gets id 1,
Doctor "Smith" gets id 1, the first booking yields Appointment id 1 with
token_number 1, the second yields id 2 with token_number 2, and booking for
patient 99 fails with 404 "Patient not found". -/
theorem concrete_scenario :
    (create_patient janePayload emptyStore).1 =
      .ok { id := 1, name := "Jane", phone := "555", age := 30, gender := "F" } ∧
    (create_doctor smithPayload demoStore1).1 =
      .ok { id := 1, name := "Smith", phone := "555", specialty := "Cardio" } ∧
    (create_appointment demoBooking1 demoStore2).1 = .ok demoAppt ∧
    (create_appointment demoBooking2 demoStore3).1 = .ok demoAppt2 ∧
    create_appointment badBooking demoStore4 =
      (.error ⟨404, "Patient not found"⟩, demoStore4) :=
  ⟨rfl, rfl, rfl, rfl, rfl⟩

/-- C10: a successful reschedule keeps the Appointment's id — the payload
carries no id field, so the record keeps its identity and remains reachable by
get() under the same id afterwards. -/
theorem reschedule_preserves_id (db : Store) (aid : Nat)
    (payload : AppointmentCreate) (appt appt2 : Appointment) (db2 : Store)
    (hfa : findAppointment db aid = some appt)
    (hupd : update_appointment aid payload db = (.ok appt2, db2)) :
    appt2.id = appt.id ∧ appt.id = aid ∧
      (get_appointment aid db2).1 = .ok appt2 := by
  have haid : appt.id = aid := by simpa using List.find?_some hfa
  rw [update_appointment, hfa] at hupd
  by_cases hp : (findPatient db payload.patient_id).isNone
  · simp [hp] at hupd
  · by_cases hd : (findDoctor db payload.doctor_id).isNone
    · simp [hp, hd] at hupd
    · simp only [hp, hd, Bool.false_eq_true, if_false] at hupd
      have happt2 : appt2 = { appt with patient_id := payload.patient_id
                                        doctor_id := payload.doctor_id
                                        date := payload.date
                                        time := payload.time } := by
        have := congrArg Prod.fst hupd
        simpa using this.symm
      have hdb2 : db2 = { db with appointments := db.appointments.map (fun a =>
          if a.id == aid then
            { appt with patient_id := payload.patient_id
                        doctor_id := payload.doctor_id
                        date := payload.date, time := payload.time }
          else a) } := by
        have := congrArg Prod.snd hupd
        exact this.symm
      refine ⟨by rw [happt2], haid, ?_⟩
      subst hdb2
      rw [get_appointment]
      have hfind : findAppointment { db with appointments := (db.appointments.map
          (fun a =>
            if a.id == aid then
              { appt with patient_id := payload.patient_id
                          doctor_id := payload.doctor_id
                          date := payload.date, time := payload.time }
            else a)) } aid = some appt2 := by
        rw [findAppointment, happt2]
        exact find?_map_replace Appointment.id haid
          ⟨appt, List.mem_of_find?_eq_some hfa, haid⟩
      rw [hfind]

/-- C10 witness: rescheduling the scenario's first Appointment keeps id 1 and
get() still returns it under id 1. -/
theorem reschedule_preserves_id_witness :
    ({ id := 1, patient_id := 1, doctor_id := 1, date := "2024-01-11"
       time := "10:00", token_number := 1 } : Appointment).id = demoAppt.id ∧
    demoAppt.id = 1 ∧
    (get_appointment 1 (update_appointment 1 demoBooking2 demoStore3).2).1 =
      .ok { id := 1, patient_id := 1, doctor_id := 1, date := "2024-01-11"
            time := "10:00", token_number := 1 } :=
  reschedule_preserves_id demoStore3 1 demoBooking2 demoAppt
    { id := 1, patient_id := 1, doctor_id := 1, date := "2024-01-11"
      time := "10:00", token_number := 1 }
    (update_appointment 1 demoBooking2 demoStore3).2 rfl rfl

end HospitalApi
